import Mathlib

/-!
Shallow embedding of the face-recognition scan session and the
latency-telemetry metrics engine of the robotmiraicb repository.

Part A embeds the client scan loop of `ChatInterface`
(`startScanning`/`loop` plus the effect cleanup).  JavaScript numbers are
modelled as `ℚ` where fractional arithmetic occurs and as `Nat`/`ℤ` for
millisecond counters; timers are modelled by `Option Nat` holding the
pending delay; the camera stream, the video element and the module-level
`cancelled` flag are explicit state fields.

Part B embeds the metrics write endpoint (`POST /api/metrics/face`), the
window resolver `resolveFaceMetricsWindow`, the `percentile` helper and
the session-grouping aggregation `getSessionGroupedMetrics` of
`faceMetricsDb`.  JavaScript `Date` parsing is abstracted as a
`String → Option ℤ` parameter (milliseconds since epoch); the sqlite row
set is the input list, ordered as the SQL `ORDER BY session_id, id`
delivers it; the JavaScript `Map` is an insertion-ordered association
list; `Array.prototype.sort` (stable) is modelled by `List.insertionSort`.
-/

/-! ### Part A: the scan loop of ChatInterface -/

/-- Fixed scan duration in milliseconds (`SCAN_DURATION_MS = 10_000`). -/
def SCAN_DURATION_MS : Nat := 10000

/-- Fixed inter-tick delay in milliseconds (`SCAN_INTERVAL_MS = 400`). -/
def SCAN_INTERVAL_MS : Nat := 400

/-- UI phases of the component (`type ChatPhase`). -/
inductive ChatPhase where
  | SCANNING
  | FOUND_WAITING_GESTURE
  | CONNECTING_REALTIME
  | READY
  | NOT_RECOGNIZED
  | ERROR
deriving DecidableEq

/-- Outcome of one identify tick as seen by the loop after its awaits:
either the capture or the fetch threw (caught by the `catch` block), or a
response arrived with `response.ok`, the parsed `data.status` and
`data.name` (absent when missing or not a string). -/
inductive IdentifyOutcome where
  | thrown
  | response (ok : Bool) (status : Option String) (name : Option String)

/-- Mutable state touched by the scan loop: the UI phase, the recognized
name, the progress bar value, the two timer handles (`scanTimerRef`,
`backHomeTimerRef`, modelled by the pending delay), the camera stream,
the presence of the video element, the module-level `cancelled` flag, a
counter of identify calls made, and the list of names passed to
`onUserRecognized`. -/
structure ScanState where
  phase : ChatPhase
  recognizedName : Option String
  scanProgress : ℚ
  scanTimer : Option Nat
  backHomeTimer : Option Nat
  cameraOn : Bool
  videoPresent : Bool
  cancelled : Bool
  identifyCalls : Nat
  userRecognizedEvents : List String

/-- State of the component right after the camera started and
`startScanning` was invoked for an old user. -/
def initialScanState (userName : Option String) : ScanState :=
  { phase := ChatPhase.SCANNING
    recognizedName := userName
    scanProgress := 0
    scanTimer := none
    backHomeTimer := none
    cameraOn := true
    videoPresent := true
    cancelled := false
    identifyCalls := 0
    userRecognizedEvents := [] }

/-- The effect cleanup run on teardown: set the `cancelled` flag, clear
both timers (`stopScanTimer`, `stopBackHomeTimer`) and stop the camera
(`stopCamera`). -/
def teardownCleanup (s : ScanState) : ScanState :=
  { s with cancelled := true, scanTimer := none, backHomeTimer := none, cameraOn := false }

/-- JavaScript `String.prototype.trim`, written over the character list so
that it evaluates by kernel reduction. -/
def jsTrim (s : String) : String :=
  String.mk (((s.data.dropWhile Char.isWhitespace).reverse.dropWhile Char.isWhitespace).reverse)

/-- Name extraction of the found branch: `typeof data?.name === "string"
&& data.name.trim() ? data.name.trim() : "Guest"`. -/
def matchedNameOf (name : Option String) : String :=
  match name with
  | some n => if jsTrim n ≠ "" then jsTrim n else "Guest"
  | none => "Guest"

/-- One invocation of `loop` inside `startScanning`.  `elapsed` is
`Date.now() - scanStartedAt` read at the top of the tick;
`tornDownDuringAwait` says whether the effect cleanup ran while the tick
was suspended in its awaits (frame capture / fetch); `outcome` is what
the awaits produced.  The function mirrors the source line by line:
cancellation/video guard, progress update, timeout branch, then the
try block with the found branch, and the rescheduling tail shared by
non-found responses and caught errors. -/
def scanTick (s : ScanState) (elapsed : Nat) (tornDownDuringAwait : Bool)
    (outcome : IdentifyOutcome) : ScanState :=
  if s.cancelled ∨ ¬ s.videoPresent then s
  else
    let s1 := { s with scanProgress := min ((elapsed : ℚ) / (SCAN_DURATION_MS : ℚ) * 100) 100 }
    if SCAN_DURATION_MS ≤ elapsed then
      { s1 with scanTimer := none, cameraOn := false, phase := ChatPhase.NOT_RECOGNIZED,
                backHomeTimer := some 2500 }
    else
      let s2 := { s1 with identifyCalls := s1.identifyCalls + 1 }
      let s3 := if tornDownDuringAwait then teardownCleanup s2 else s2
      match outcome with
      | IdentifyOutcome.thrown => { s3 with scanTimer := some SCAN_INTERVAL_MS }
      | IdentifyOutcome.response ok status name =>
        if ok ∧ status = some "found" then
          let m := matchedNameOf name
          { s3 with scanTimer := none, cameraOn := false, backHomeTimer := none,
                    recognizedName := some m,
                    userRecognizedEvents := s3.userRecognizedEvents ++ [m],
                    phase := ChatPhase.FOUND_WAITING_GESTURE }
        else
          { s3 with scanTimer := some SCAN_INTERVAL_MS }

/-! ### Part B: metrics ingest route (app/api/metrics/face POST) -/

/-- The route helper `asOptionalNumber`: a value that is absent (or not a
number at all, folded into `none` here), non-finite, or negative becomes
`null`.  Numbers are modelled as `ℚ`, where every value is finite. -/
def asOptionalNumber (v : Option ℚ) : Option ℚ :=
  match v with
  | none => none
  | some x => if x < 0 then none else some x

/-- The route helper `asOptionalText`: a non-string (folded into `none`)
or blank string becomes `null`, otherwise the trimmed string is kept. -/
def asOptionalText (v : Option String) : Option String :=
  match v with
  | none => none
  | some s => if jsTrim s = "" then none else some (jsTrim s)

/-- JSON body of a metrics write request; a field is `none` when it is
missing or not of the expected JSON type. -/
structure MetricsPostBody where
  session_id : Option String
  client_rtt_ms : Option ℚ
  status : Option String
  reason : Option String
  server_processing_ms : Option ℚ
  gateway_upstream_ms : Option ℚ

/-- Argument record of `recordFaceMetricEvent` (`InsertMetricEventInput`). -/
structure InsertMetricEventInput where
  source : String
  sessionId : Option String
  status : Option String
  reason : Option String
  serverProcessingMs : Option ℚ
  gatewayUpstreamMs : Option ℚ
  clientRttMs : Option ℚ
  networkLatencyMsEst : Option ℚ
deriving DecidableEq

/-- Responses the POST handler can produce: the success shape
`{ ok: true }`, a 400 with an error message, or the catch-all 500. -/
inductive PostResponse where
  | success
  | badRequest (msg : String)
  | serverError (msg : String)
deriving DecidableEq

/-- The POST handler of `/api/metrics/face`.  `persist` stands for
`recordFaceMetricEvent` and may fail (sqlite errors propagate as thrown
exceptions, landing in the route catch).  Returns the HTTP response
together with the event that was durably recorded, if any. -/
def metricsFacePost (persist : InsertMetricEventInput → Except String Unit)
    (body : MetricsPostBody) (headerSessionId : Option String) :
    PostResponse × Option InsertMetricEventInput :=
  let sessionId := match asOptionalText body.session_id with
    | some s => some s
    | none => headerSessionId
  match asOptionalNumber body.client_rtt_ms with
  | none => (PostResponse.badRequest "client_rtt_ms must be a non-negative number", none)
  | some clientRttMs =>
    let statusRaw := asOptionalText body.status
    let status :=
      if statusRaw = some "found" ∨ statusRaw = some "unknown" ∨ statusRaw = some "error"
      then statusRaw else none
    let reason := asOptionalText body.reason
    let serverProcessingMs := asOptionalNumber body.server_processing_ms
    let gatewayUpstreamMs := asOptionalNumber body.gateway_upstream_ms
    let networkLatencyMsEst :=
      match serverProcessingMs with
      | none => none
      | some sp => some (max 0 (clientRttMs - sp))
    let evt : InsertMetricEventInput :=
      { source := "client", sessionId := sessionId, status := status, reason := reason,
        serverProcessingMs := serverProcessingMs, gatewayUpstreamMs := gatewayUpstreamMs,
        clientRttMs := some clientRttMs, networkLatencyMsEst := networkLatencyMsEst }
    match persist evt with
    | Except.ok _ => (PostResponse.success, some evt)
    | Except.error e => (PostResponse.serverError e, none)

/-- Persistence-layer helper `normalizeMs` of `faceMetricsDb`: non-finite
or negative millisecond values become `null` before the sqlite insert. -/
def normalizeMs (v : Option ℚ) : Option ℚ :=
  match v with
  | none => none
  | some x => if 0 ≤ x then some x else none

/-! ### Part B: window resolution (resolveFaceMetricsWindow) -/

/-- Window mode: default today window or explicit custom range. -/
inductive WindowMode where
  | today
  | custom
deriving DecidableEq

/-- Resolved window.  The source carries each bound twice (ISO string and
sqlite text); with time modelled as milliseconds since epoch the two
renderings coincide, so one `ℤ` per bound suffices.  `fromMs`/`toMs`
stand for the `from`/`to` fields (`from` is a reserved word in Lean). -/
structure ResolvedMetricsWindow where
  mode : WindowMode
  fromMs : ℤ
  toMs : ℤ
deriving DecidableEq

/-- Embedding of `resolveFaceMetricsWindow`.  JavaScript `Date` parsing
(`parseDateInput`, including its finiteness test) is the abstract
parameter `parse`; `nowMs` is `Date.now()` and `startOfTodayMs` the local
midnight obtained by `setHours(0,0,0,0)` on that clock value.  The input
pair carries `null`/absent as `none`. -/
def resolveFaceMetricsWindow (parse : String → Option ℤ) (nowMs startOfTodayMs : ℤ)
    (ifrom ito : Option String) : Except String ResolvedMetricsWindow :=
  let fromRaw := (ifrom.map jsTrim).getD ""
  let toRaw := (ito.map jsTrim).getD ""
  if (fromRaw ≠ "" ∧ toRaw = "") ∨ (fromRaw = "" ∧ toRaw ≠ "") then
    Except.error "Both \x27from\x27 and \x27to\x27 must be provided together for a custom range."
  else if fromRaw = "" ∧ toRaw = "" then
    Except.ok { mode := WindowMode.today, fromMs := startOfTodayMs, toMs := nowMs }
  else
    match parse fromRaw, parse toRaw with
    | some fromDate, some toDate =>
      if toDate ≤ fromDate then
        Except.error "\x27from\x27 must be earlier than \x27to\x27."
      else
        Except.ok { mode := WindowMode.custom, fromMs := fromDate, toMs := toDate }
    | _, _ =>
      Except.error "Invalid date format. Use ISO datetime for \x27from\x27 and \x27to\x27."

/-! ### Part B: percentile and rounding helpers -/

/-- Presentation rounding `roundMetric`: two decimal places via
`Math.round(value * 100) / 100`; absent stays absent (the finiteness
guard of the source never fires over `ℚ`). -/
def roundMetric (v : Option ℚ) : Option ℚ :=
  v.map (fun x => ((round (x * 100) : ℤ) : ℚ) / 100)

/-- Nearest-rank percentile of `faceMetricsDb`: sort ascending, then take
the entry at `ceil(p/100 * n) - 1` clamped into `[0, n-1]`; empty input
yields `null`.  The JavaScript numeric sort is modelled by the stable
`List.insertionSort`; the in-bounds index access `sorted[idx]` is
rendered with `getD` (the clamp keeps it in bounds, so the default is
never consulted). -/
def percentile (values : List ℚ) (p : ℚ) : Option ℚ :=
  match values with
  | [] => none
  | _ :: _ =>
    let sorted := values.insertionSort (· ≤ ·)
    let idx : ℤ := max 0 (min ((sorted.length : ℤ) - 1) (Int.ceil (p / 100 * sorted.length) - 1))
    some (sorted.getD idx.toNat 0)

/-! ### Part B: session grouping (getSessionGroupedMetrics) -/

/-- Row shape of the server-sourced query: `source = 'server'`, non-blank
`session_id`, within the window, delivered `ORDER BY session_id ASC,
id ASC`. -/
structure ServerRow where
  id : ℤ
  session_id : String
  created_at : String
  status : Option String
  reason : Option String
  server_processing_ms : Option ℚ
  gateway_upstream_ms : Option ℚ

/-- Does a row carry `status = 'found'`. -/
def isFoundRow (r : ServerRow) : Bool :=
  r.status = some "found"

/-- The per-session accumulator object placed in `sessionMap`, including
the private running sums and counts. -/
structure SessionAcc where
  session_id : String
  started_at : String
  ended_at : String
  attempt_count : Nat
  success : Bool
  attempts_until_success : Option Nat
  first_success_at : Option String
  first_success_time_ms : Option ℚ
  final_status : Option String
  final_reason : Option String
  serverSum : ℚ
  serverCount : Nat
  gatewaySum : ℚ
  gatewayCount : Nat

/-- The fresh accumulator created when a session id is first seen; both
timestamps start at the creating row's `created_at`. -/
def blankSession (sid created : String) : SessionAcc :=
  { session_id := sid
    started_at := created
    ended_at := created
    attempt_count := 0
    success := false
    attempts_until_success := none
    first_success_at := none
    first_success_time_ms := none
    final_status := none
    final_reason := none
    serverSum := 0
    serverCount := 0
    gatewaySum := 0
    gatewayCount := 0 }

/-- The body of the `for (const row of serverRows)` loop applied to the
accumulator of the row's session: bump `attempt_count`, refresh
`ended_at`/`final_status`/`final_reason`, fold the present latency values
into the running sums, and on the first `found` row record success, the
1-based attempt ordinal (the already incremented count), the timestamp,
and — when both timestamps parse — the elapsed time floored at zero.
`parseUtc` abstracts `parseSqliteUtc` to milliseconds since epoch. -/
def stepSession (parseUtc : String → Option ℤ) (s : SessionAcc) (row : ServerRow) : SessionAcc :=
  let firstFound := !s.success && isFoundRow row
  { session_id := s.session_id
    started_at := s.started_at
    ended_at := row.created_at
    attempt_count := s.attempt_count + 1
    success := s.success || isFoundRow row
    attempts_until_success :=
      if firstFound then some (s.attempt_count + 1) else s.attempts_until_success
    first_success_at :=
      if firstFound then some row.created_at else s.first_success_at
    first_success_time_ms :=
      if firstFound then
        match parseUtc s.started_at, parseUtc row.created_at with
        | some startedAt, some firstSuccessAt =>
          some ((max 0 (firstSuccessAt - startedAt) : ℤ) : ℚ)
        | _, _ => s.first_success_time_ms
      else s.first_success_time_ms
    final_status := row.status
    final_reason := row.reason
    serverSum :=
      match row.server_processing_ms with
      | some v => s.serverSum + v
      | none => s.serverSum
    serverCount :=
      match row.server_processing_ms with
      | some _ => s.serverCount + 1
      | none => s.serverCount
    gatewaySum :=
      match row.gateway_upstream_ms with
      | some v => s.gatewaySum + v
      | none => s.gatewaySum
    gatewayCount :=
      match row.gateway_upstream_ms with
      | some _ => s.gatewayCount + 1
      | none => s.gatewayCount }

/-- Lookup in the insertion-ordered association list that models the
JavaScript `Map` (`sessionMap.get`): first entry with the key. -/
def alistFind : List (String × SessionAcc) → String → Option SessionAcc
  | [], _ => none
  | kv :: m, k => if kv.1 == k then some kv.2 else alistFind m k

/-- Value replacement for an existing key, keeping its position
(`Map` semantics for `set` on a present key). -/
def alistReplace : List (String × SessionAcc) → String → SessionAcc → List (String × SessionAcc)
  | [], _, _ => []
  | kv :: m, k, v => (if kv.1 == k then (kv.1, v) else kv) :: alistReplace m k v

/-- One iteration of the row loop over the whole map: update the row's
session in place, or append a fresh accumulator (a `Map` appends new keys
in insertion order) and update it. -/
def applyRow (parseUtc : String → Option ℤ) (m : List (String × SessionAcc))
    (row : ServerRow) : List (String × SessionAcc) :=
  match alistFind m row.session_id with
  | some s => alistReplace m row.session_id (stepSession parseUtc s row)
  | none =>
    m ++ [(row.session_id, stepSession parseUtc (blankSession row.session_id row.created_at) row)]

/-- The whole grouping loop: fold the ordered server rows into the map. -/
def processRows (parseUtc : String → Option ℤ) (rows : List ServerRow) :
    List (String × SessionAcc) :=
  rows.foldl (applyRow parseUtc) []

/-- Accumulator produced for the rows of a single session, processed in
order: the blank accumulator of the first row fed through the loop body. -/
def foldGroup (parseUtc : String → Option ℤ) : List ServerRow → Option SessionAcc
  | [] => none
  | r :: rs => some ((r :: rs).foldl (stepSession parseUtc) (blankSession r.session_id r.created_at))

/-- Specification-side description of one session group, following the
words of the spec: attempt count is the group size, success means some
`found` event, `attempts_until_success` is the 1-based position of the
first `found` event, `first_success_time_ms` the elapsed time from the
group's first event to its first `found` event (floored at zero, absent
when a timestamp does not parse), final status/reason come from the last
event, and the running sums range over the events that carry the value. -/
def sessionGroupSpec (parseUtc : String → Option ℤ) (sid start : String)
    (rows : List ServerRow) : SessionAcc :=
  { session_id := sid
    started_at := start
    ended_at := ((rows.getLast?).map (fun r => r.created_at)).getD start
    attempt_count := rows.length
    success := rows.any isFoundRow
    attempts_until_success := (rows.findIdx? isFoundRow).map (· + 1)
    first_success_at := (rows.find? isFoundRow).map (fun r => r.created_at)
    first_success_time_ms :=
      match rows.find? isFoundRow with
      | some r =>
        match parseUtc start, parseUtc r.created_at with
        | some startedAt, some firstSuccessAt =>
          some ((max 0 (firstSuccessAt - startedAt) : ℤ) : ℚ)
        | _, _ => none
      | none => none
    final_status :=
      match rows.getLast? with
      | some r => r.status
      | none => none
    final_reason :=
      match rows.getLast? with
      | some r => r.reason
      | none => none
    serverSum := (rows.filterMap (fun r => r.server_processing_ms)).sum
    serverCount := (rows.filterMap (fun r => r.server_processing_ms)).length
    gatewaySum := (rows.filterMap (fun r => r.gateway_upstream_ms)).sum
    gatewayCount := (rows.filterMap (fun r => r.gateway_upstream_ms)).length }

/-- Per-session client-sourced averages, as delivered by the grouped
client query (`AVG(client_rtt_ms)`, `AVG(network_latency_ms_est)` per
session id, normalized by `normalizeMs`). -/
structure ClientStats where
  avg_client_rtt_ms : Option ℚ
  avg_network_latency_ms_est : Option ℚ

/-- One entry of the `sessions` array in the response. -/
structure SessionOut where
  session_id : String
  started_at : String
  ended_at : String
  attempt_count : Nat
  success : Bool
  attempts_until_success : Option Nat
  first_success_at : Option String
  first_success_time_ms : Option ℚ
  avg_server_processing_ms : Option ℚ
  avg_gateway_upstream_ms : Option ℚ
  avg_client_rtt_ms : Option ℚ
  avg_network_latency_ms_est : Option ℚ
  final_status : Option String
  final_reason : Option String

/-- The projection in the `sessions = Array.from(sessionMap.values()).map`
step: divide the running sums by the counts when non-empty, merge the
client-sourced averages, round for presentation. -/
def finalizeSession (s : SessionAcc) (clientStats : Option ClientStats) : SessionOut :=
  { session_id := s.session_id
    started_at := s.started_at
    ended_at := s.ended_at
    attempt_count := s.attempt_count
    success := s.success
    attempts_until_success := s.attempts_until_success
    first_success_at := s.first_success_at
    first_success_time_ms := roundMetric s.first_success_time_ms
    avg_server_processing_ms :=
      if 0 < s.serverCount then roundMetric (some (s.serverSum / s.serverCount)) else none
    avg_gateway_upstream_ms :=
      if 0 < s.gatewayCount then roundMetric (some (s.gatewaySum / s.gatewayCount)) else none
    avg_client_rtt_ms := roundMetric ((clientStats.bind (fun c => c.avg_client_rtt_ms)))
    avg_network_latency_ms_est :=
      roundMetric ((clientStats.bind (fun c => c.avg_network_latency_ms_est)))
    final_status := s.final_status
    final_reason := s.final_reason }

/-- The `session_summary` object of the response. -/
structure SessionSummaryOut where
  total_sessions : Nat
  successful_sessions : Nat
  failed_sessions : Nat
  success_rate : ℚ
  avg_attempts_until_success : Option ℚ
  p50_first_success_time_ms : Option ℚ
  p90_first_success_time_ms : Option ℚ
  avg_attempt_latency_per_session_ms : Option ℚ

/-- The full `SessionGroupedMetrics` value. -/
structure GroupedMetrics where
  window : ResolvedMetricsWindow
  session_summary : SessionSummaryOut
  sessions : List SessionOut

/-- Descending comparison on `started_at` used by
`sessions.sort((a, b) => b.started_at.localeCompare(a.started_at))`;
`localeCompare` on the sqlite `YYYY-MM-DD HH:MM:SS` texts is the plain
lexicographic string order. -/
def sessionDescByStart (a b : SessionOut) : Prop :=
  b.started_at ≤ a.started_at

instance : DecidableRel sessionDescByStart :=
  fun a b => String.decidableLE b.started_at a.started_at

/-- Embedding of `getSessionGroupedMetrics`: group the ordered server
rows, finalize each session merging the client averages (`clientRows`
models the grouped client query result, keyed by session id), sort the
sessions by `started_at` descending, then compute the summary over the
sorted array exactly as the source does. -/
def getSessionGroupedMetrics (parseUtc : String → Option ℤ) (window : ResolvedMetricsWindow)
    (serverRows : List ServerRow) (clientRows : List (String × ClientStats)) : GroupedMetrics :=
  let sessions0 := (processRows parseUtc serverRows).map (fun kv =>
    finalizeSession kv.2 (((clientRows.find? (fun c => c.1 == kv.2.session_id)).map
      (fun c => c.2))))
  let sessions := sessions0.insertionSort sessionDescByStart
  let successfulSessions := sessions.filter (fun s => s.success)
  let firstSuccessValues := successfulSessions.filterMap (fun s => s.first_success_time_ms)
  let attemptsUntilSuccessValues : List ℚ :=
    successfulSessions.filterMap (fun s => s.attempts_until_success.map (fun n => (n : ℚ)))
  let sessionAttemptLatencyValues := sessions.filterMap (fun s => s.avg_server_processing_ms)
  let totalSessions := sessions.length
  let successCount := successfulSessions.length
  let avgAttemptsUntilSuccess :=
    if 0 < attemptsUntilSuccessValues.length then
      some (attemptsUntilSuccessValues.sum / attemptsUntilSuccessValues.length)
    else none
  let avgAttemptLatencyPerSession :=
    if 0 < sessionAttemptLatencyValues.length then
      some (sessionAttemptLatencyValues.sum / sessionAttemptLatencyValues.length)
    else none
  let successRate : ℚ := if 0 < totalSessions then (successCount : ℚ) / totalSessions else 0
  { window := window
    session_summary :=
      { total_sessions := totalSessions
        successful_sessions := successCount
        failed_sessions := totalSessions - successCount
        success_rate := ((round (successRate * 10000) : ℤ) : ℚ) / 10000
        avg_attempts_until_success := roundMetric avgAttemptsUntilSuccess
        p50_first_success_time_ms := roundMetric (percentile firstSuccessValues 50)
        p90_first_success_time_ms := roundMetric (percentile firstSuccessValues 90)
        avg_attempt_latency_per_session_ms := roundMetric avgAttemptLatencyPerSession }
    sessions := sessions }

/-! ### Claims about the scan loop -/

/-- C1: the scan loop has no temporal-confirmation window.  Evaluated at
the failing input — the very first tick of a fresh session answering
`ok` with `status = "found"` for an identity seen exactly once — the
loop immediately reaches the confirmed terminal phase
`FOUND_WAITING_GESTURE`, stops the camera and schedules no further tick,
although the identity has appeared only once (below any recent-matches
threshold greater than one). -/
theorem scan_single_found_confirms :
    (scanTick (initialScanState none) 0 false
      (IdentifyOutcome.response true (some "found") (some "Alice"))).phase
        = ChatPhase.FOUND_WAITING_GESTURE ∧
    (scanTick (initialScanState none) 0 false
      (IdentifyOutcome.response true (some "found") (some "Alice"))).scanTimer = none ∧
    (scanTick (initialScanState none) 0 false
      (IdentifyOutcome.response true (some "found") (some "Alice"))).cameraOn = false ∧
    (scanTick (initialScanState none) 0 false
      (IdentifyOutcome.response true (some "found") (some "Alice"))).recognizedName
        = some "Alice" ∧
    (scanTick (initialScanState none) 0 false
      (IdentifyOutcome.response true (some "found") (some "Alice"))).identifyCalls = 1 := by
  refine ⟨?_, ?_, ?_, ?_, ?_⟩
  · rfl
  · rfl
  · rfl
  · rfl
  · rfl

/-- C2: on a tick of a live session (not cancelled, video element
present) whose elapsed time has reached `SCAN_DURATION_MS`, the loop
transitions to the timed-out terminal phase `NOT_RECOGNIZED`, stops the
camera, clears the scan timer without scheduling another tick, schedules
the 2500 ms delayed return to the entry screen, and performs no remote
identify call on this or any later tick. -/
theorem scan_timeout_terminal (s : ScanState) (elapsed : Nat)
    (hc : s.cancelled = false) (hv : s.videoPresent = true)
    (hd : SCAN_DURATION_MS ≤ elapsed)
    (td : Bool) (outcome : IdentifyOutcome) :
    (scanTick s elapsed td outcome).phase = ChatPhase.NOT_RECOGNIZED ∧
    (scanTick s elapsed td outcome).cameraOn = false ∧
    (scanTick s elapsed td outcome).scanTimer = none ∧
    (scanTick s elapsed td outcome).backHomeTimer = some 2500 ∧
    (scanTick s elapsed td outcome).identifyCalls = s.identifyCalls := by
  simp [scanTick, hc, hv, hd]

/-- Witness for C2 at the concrete boundary tick: elapsed time exactly
equal to the scan duration on a fresh session. -/
theorem scan_timeout_terminal_witness :
    (scanTick (initialScanState none) SCAN_DURATION_MS false IdentifyOutcome.thrown).phase
        = ChatPhase.NOT_RECOGNIZED ∧
    (scanTick (initialScanState none) SCAN_DURATION_MS false IdentifyOutcome.thrown).cameraOn
        = false ∧
    (scanTick (initialScanState none) SCAN_DURATION_MS false IdentifyOutcome.thrown).scanTimer
        = none ∧
    (scanTick (initialScanState none) SCAN_DURATION_MS false
        IdentifyOutcome.thrown).backHomeTimer = some 2500 ∧
    (scanTick (initialScanState none) SCAN_DURATION_MS false
        IdentifyOutcome.thrown).identifyCalls = (initialScanState none).identifyCalls :=
  scan_timeout_terminal (initialScanState none) SCAN_DURATION_MS rfl rfl
    (Nat.le_refl _) false IdentifyOutcome.thrown

/-- C3 counterexample: a tick already past its cancellation check when
the session is torn down (flag set during the await) does act on its
late result.  At a concrete input — fresh session, teardown during the
await, a non-found response — the resumed tick schedules a brand-new
scan timer even though teardown has already cleared all timers; and with
a found response it flips the UI phase to `FOUND_WAITING_GESTURE` after
teardown.  This falsifies the claim that the late result is discarded. -/
theorem scan_late_tick_not_discarded :
    ((scanTick (initialScanState none) 1000 true
        (IdentifyOutcome.response true (some "unknown") none)).scanTimer
      = some SCAN_INTERVAL_MS) ∧
    ((scanTick (initialScanState none) 1000 true
        (IdentifyOutcome.response true (some "unknown") none)).cancelled = true) ∧
    ((scanTick (initialScanState none) 1000 true
        (IdentifyOutcome.response true (some "found") (some "Bob"))).phase
      = ChatPhase.FOUND_WAITING_GESTURE) := by
  refine ⟨?_, ?_, ?_⟩ <;> rfl

/-- C3 amended: the cancellation flag is checked only at the start of a
tick.  A tick whose awaits complete after teardown still acts on its
result: a non-found or thrown outcome schedules one more scan timer with
the phase unchanged, a found outcome sets the recognized name and the
`FOUND_WAITING_GESTURE` phase; the camera is never restarted (it stays
off after teardown), and any tick that starts on a cancelled state
returns it unchanged, so the one rescheduled timer does nothing. -/
theorem scan_late_tick_behavior (s : ScanState) (elapsed : Nat)
    (hc : s.cancelled = false) (hv : s.videoPresent = true)
    (hd : elapsed < SCAN_DURATION_MS) :
    (∀ ok status name, ¬ (ok = true ∧ status = some "found") →
      (scanTick s elapsed true (IdentifyOutcome.response ok status name)).scanTimer
          = some SCAN_INTERVAL_MS ∧
      (scanTick s elapsed true (IdentifyOutcome.response ok status name)).phase = s.phase ∧
      (scanTick s elapsed true (IdentifyOutcome.response ok status name)).cancelled = true ∧
      (scanTick s elapsed true (IdentifyOutcome.response ok status name)).cameraOn = false) ∧
    ((scanTick s elapsed true IdentifyOutcome.thrown).scanTimer = some SCAN_INTERVAL_MS ∧
      (scanTick s elapsed true IdentifyOutcome.thrown).cancelled = true) ∧
    (∀ name,
      (scanTick s elapsed true (IdentifyOutcome.response true (some "found") name)).phase
          = ChatPhase.FOUND_WAITING_GESTURE ∧
      (scanTick s elapsed true (IdentifyOutcome.response true (some "found") name)).recognizedName
          = some (matchedNameOf name) ∧
      (scanTick s elapsed true (IdentifyOutcome.response true (some "found") name)).cameraOn
          = false) ∧
    (∀ s2 : ScanState, s2.cancelled = true →
      ∀ e td o, scanTick s2 e td o = s2) := by
  have hnd : ¬ SCAN_DURATION_MS ≤ elapsed := Nat.not_le.mpr hd
  refine ⟨?_, ?_, ?_, ?_⟩
  · intro ok status name hns
    constructor
    · cases ok
      · simp [scanTick, teardownCleanup, hc, hv, hnd]
      · simp [scanTick, teardownCleanup, hc, hv, hnd]
        simp_all
    constructor
    · cases ok
      · simp [scanTick, teardownCleanup, hc, hv, hnd]
      · simp [scanTick, teardownCleanup, hc, hv, hnd]
        simp_all
    constructor
    · cases ok
      · simp [scanTick, teardownCleanup, hc, hv, hnd]
      · simp [scanTick, teardownCleanup, hc, hv, hnd]
        simp_all
    · cases ok
      · simp [scanTick, teardownCleanup, hc, hv, hnd]
      · simp [scanTick, teardownCleanup, hc, hv, hnd]
        simp_all
  · constructor
    · simp [scanTick, teardownCleanup, hc, hv, hnd]
    · simp [scanTick, teardownCleanup, hc, hv, hnd]
  · intro name
    refine ⟨?_, ?_, ?_⟩ <;> simp [scanTick, teardownCleanup, hc, hv, hnd]
  · intro s2 hcan e td o
    simp [scanTick, hcan]

/-- Witness for C3 amended at a concrete late tick: fresh session, torn
down during the await, thrown outcome. -/
theorem scan_late_tick_behavior_witness :
    (scanTick (initialScanState none) 1000 true IdentifyOutcome.thrown).scanTimer
        = some SCAN_INTERVAL_MS ∧
    (scanTick (initialScanState none) 1000 true IdentifyOutcome.thrown).cancelled = true :=
  (scan_late_tick_behavior (initialScanState none) 1000 rfl rfl (by decide)).2.1

/-! ### Claims about the metrics write endpoint -/

/-- C4 counterexample: a metrics write whose `client_rtt_ms` is `-5` is
not normalized to absent — the handler rejects the request with the 400
error `client_rtt_ms must be a non-negative number` and persists
nothing, even with a perfectly persisting store. -/
theorem metrics_post_negative_rtt_rejected :
    metricsFacePost (fun _ => Except.ok ())
      { session_id := some "s1", client_rtt_ms := some (-5), status := some "found",
        reason := none, server_processing_ms := some 40, gateway_upstream_ms := none }
      none
      = (PostResponse.badRequest "client_rtt_ms must be a non-negative number", none) := by
  simp [metricsFacePost, asOptionalNumber]

/-- C4 amended: `client_rtt_ms` is the one validated field — a negative
(or non-finite) value makes the handler reject with a 400 and persist
nothing; the other numeric fields are the normalized-not-rejected ones:
with a valid `client_rtt_ms`, a negative `server_processing_ms` is
normalized to absent and the event is still persisted with its other
valid fields intact (and no derived network latency, which needs a
present server processing time). -/
theorem metrics_post_rtt_validation (body : MetricsPostBody) (hdr : Option String)
    (persist : InsertMetricEventInput → Except String Unit) :
    (∀ q : ℚ, body.client_rtt_ms = some q → q < 0 →
      metricsFacePost persist body hdr
        = (PostResponse.badRequest "client_rtt_ms must be a non-negative number", none)) ∧
    (∀ q sp : ℚ, body.client_rtt_ms = some q → 0 ≤ q →
      body.server_processing_ms = some sp → sp < 0 →
      persist = (fun _ => Except.ok ()) →
      (metricsFacePost persist body hdr).2 = some
        { source := "client"
          sessionId := match asOptionalText body.session_id with
            | some s => some s
            | none => hdr
          status := if asOptionalText body.status = some "found" ∨
              asOptionalText body.status = some "unknown" ∨
              asOptionalText body.status = some "error"
            then asOptionalText body.status else none
          reason := asOptionalText body.reason
          serverProcessingMs := none
          gatewayUpstreamMs := asOptionalNumber body.gateway_upstream_ms
          clientRttMs := some q
          networkLatencyMsEst := none }) := by
  constructor
  · intro q hq hneg
    simp [metricsFacePost, asOptionalNumber, hq, hneg]
  · intro q sp hq hnn hsp hspneg hp
    subst hp
    simp [metricsFacePost, asOptionalNumber, hq, hsp, hspneg, not_lt.mpr hnn]

/-- Witness for C4 amended at concrete inputs: `client_rtt_ms = -5` is
rejected, and with `client_rtt_ms = 120`, `server_processing_ms = -3`
the event persists with the negative field absent. -/
theorem metrics_post_rtt_validation_witness :
    ((-5 : ℚ) < 0 ∧
      metricsFacePost (fun _ => Except.ok ())
        { session_id := none, client_rtt_ms := some (-5), status := none,
          reason := none, server_processing_ms := none, gateway_upstream_ms := none } none
        = (PostResponse.badRequest "client_rtt_ms must be a non-negative number", none)) ∧
    (metricsFacePost (fun _ => Except.ok ())
        { session_id := none, client_rtt_ms := some 120, status := none,
          reason := none, server_processing_ms := some (-3), gateway_upstream_ms := none } none).2
      = some
        { source := "client", sessionId := none, status := none, reason := none,
          serverProcessingMs := none, gatewayUpstreamMs := none,
          clientRttMs := some 120, networkLatencyMsEst := none } := by
  constructor
  · exact ⟨by norm_num,
      (metrics_post_rtt_validation
        { session_id := none, client_rtt_ms := some (-5), status := none,
          reason := none, server_processing_ms := none, gateway_upstream_ms := none }
        none (fun _ => Except.ok ())).1 (-5) rfl (by norm_num)⟩
  · have h := (metrics_post_rtt_validation
      { session_id := none, client_rtt_ms := some 120, status := none,
        reason := none, server_processing_ms := some (-3), gateway_upstream_ms := none }
      none (fun _ => Except.ok ())).2 120 (-3) rfl (by norm_num) rfl (by norm_num) rfl
    simpa [asOptionalText] using h

/-- C5 counterexample: the write endpoint does not swallow storage
failures — when persistence fails, the handler answers with the 500
error shape carrying the storage message, not with the success shape. -/
theorem metrics_post_persist_error_surfaces :
    (metricsFacePost (fun _ => Except.error "sqlite write failed")
      { session_id := some "s1", client_rtt_ms := some 120, status := none,
        reason := none, server_processing_ms := none, gateway_upstream_ms := none } none).1
      = PostResponse.serverError "sqlite write failed" ∧
    PostResponse.serverError "sqlite write failed" ≠ PostResponse.success := by
  constructor
  · simp [metricsFacePost, asOptionalNumber, asOptionalText]
    norm_num
  · simp

/-- C5 amended: the response shape of the write endpoint tracks
persistence — with a valid `client_rtt_ms` the handler answers the
success shape exactly when the store accepts the event, and surfaces a
failing store as the catch-all 500 error response carrying the storage
message. -/
theorem metrics_post_response_matches_persist (body : MetricsPostBody) (hdr : Option String)
    (q : ℚ) (hq : body.client_rtt_ms = some q) (hnn : 0 ≤ q) :
    (∀ msg, (metricsFacePost (fun _ => Except.error msg) body hdr).1
        = PostResponse.serverError msg) ∧
    (metricsFacePost (fun _ => Except.ok ()) body hdr).1 = PostResponse.success := by
  constructor
  · intro msg
    simp [metricsFacePost, asOptionalNumber, hq, not_lt.mpr hnn]
  · simp [metricsFacePost, asOptionalNumber, hq, not_lt.mpr hnn]

/-- Witness for C5 amended at a concrete valid body. -/
theorem metrics_post_response_matches_persist_witness :
    (metricsFacePost (fun _ => Except.error "disk full")
      { session_id := none, client_rtt_ms := some 80, status := none,
        reason := none, server_processing_ms := none, gateway_upstream_ms := none } none).1
      = PostResponse.serverError "disk full" ∧
    (metricsFacePost (fun _ => Except.ok ())
      { session_id := none, client_rtt_ms := some 80, status := none,
        reason := none, server_processing_ms := none, gateway_upstream_ms := none } none).1
      = PostResponse.success := by
  have h := metrics_post_response_matches_persist
    { session_id := none, client_rtt_ms := some 80, status := none,
      reason := none, server_processing_ms := none, gateway_upstream_ms := none }
    none 80 rfl (by norm_num)
  exact ⟨h.1 "disk full", h.2⟩

/-! ### Claims about window resolution -/

/-- C6: with both bounds absent or blank the resolver yields the
today window `[start of local today, now)`; exactly one bound present is
an input error; unparseable timestamps are an input error; `from >= to`
is an input error; and the three error messages are pairwise distinct.
Conditions are phrased on the trimmed inputs exactly as the source
computes them. -/
theorem resolve_window_cases (parse : String → Option ℤ) (nowMs startOfTodayMs : ℤ)
    (ifrom ito : Option String) :
    (((ifrom.map jsTrim).getD "" = "") → ((ito.map jsTrim).getD "" = "") →
      resolveFaceMetricsWindow parse nowMs startOfTodayMs ifrom ito
        = Except.ok { mode := WindowMode.today, fromMs := startOfTodayMs, toMs := nowMs }) ∧
    (((ifrom.map jsTrim).getD "" ≠ "") → ((ito.map jsTrim).getD "" = "") →
      resolveFaceMetricsWindow parse nowMs startOfTodayMs ifrom ito
        = Except.error
          "Both \x27from\x27 and \x27to\x27 must be provided together for a custom range.") ∧
    (((ifrom.map jsTrim).getD "" = "") → ((ito.map jsTrim).getD "" ≠ "") →
      resolveFaceMetricsWindow parse nowMs startOfTodayMs ifrom ito
        = Except.error
          "Both \x27from\x27 and \x27to\x27 must be provided together for a custom range.") ∧
    (((ifrom.map jsTrim).getD "" ≠ "") → ((ito.map jsTrim).getD "" ≠ "") →
      (parse ((ifrom.map jsTrim).getD "") = none ∨ parse ((ito.map jsTrim).getD "") = none) →
      resolveFaceMetricsWindow parse nowMs startOfTodayMs ifrom ito
        = Except.error "Invalid date format. Use ISO datetime for \x27from\x27 and \x27to\x27.") ∧
    (∀ a b : ℤ, ((ifrom.map jsTrim).getD "" ≠ "") → ((ito.map jsTrim).getD "" ≠ "") →
      parse ((ifrom.map jsTrim).getD "") = some a → parse ((ito.map jsTrim).getD "") = some b →
      b ≤ a →
      resolveFaceMetricsWindow parse nowMs startOfTodayMs ifrom ito
        = Except.error "\x27from\x27 must be earlier than \x27to\x27.") ∧
    (∀ a b : ℤ, ((ifrom.map jsTrim).getD "" ≠ "") → ((ito.map jsTrim).getD "" ≠ "") →
      parse ((ifrom.map jsTrim).getD "") = some a → parse ((ito.map jsTrim).getD "") = some b →
      a < b →
      resolveFaceMetricsWindow parse nowMs startOfTodayMs ifrom ito
        = Except.ok { mode := WindowMode.custom, fromMs := a, toMs := b }) ∧
    (("Both \x27from\x27 and \x27to\x27 must be provided together for a custom range."
        ≠ "Invalid date format. Use ISO datetime for \x27from\x27 and \x27to\x27.") ∧
      ("Both \x27from\x27 and \x27to\x27 must be provided together for a custom range."
        ≠ "\x27from\x27 must be earlier than \x27to\x27.") ∧
      ("Invalid date format. Use ISO datetime for \x27from\x27 and \x27to\x27."
        ≠ "\x27from\x27 must be earlier than \x27to\x27.")) := by
  refine ⟨?_, ?_, ?_, ?_, ?_, ?_, by refine ⟨?_, ?_, ?_⟩ <;> decide⟩
  · intro hf ht
    simp [resolveFaceMetricsWindow, hf, ht]
  · intro hf ht
    simp [resolveFaceMetricsWindow, hf, ht]
  · intro hf ht
    simp [resolveFaceMetricsWindow, hf, ht]
  · intro hf ht hp
    rcases hp with hp | hp
    · simp only [resolveFaceMetricsWindow, hf, ht]
      simp [hf, ht, hp]
    · simp only [resolveFaceMetricsWindow, hf, ht]
      simp [hf, ht, hp]
  · intro a b hf ht ha hb hba
    simp [resolveFaceMetricsWindow, hf, ht, ha, hb, hba]
  · intro a b hf ht ha hb hab
    simp [resolveFaceMetricsWindow, hf, ht, ha, hb, not_le.mpr hab]

/-- Witness for C6 at concrete inputs: absent bounds resolve to the
today window, a lone `from` errors, a reversed pair errors, and an
unparseable bound errors, with a two-point concrete parse function. -/
theorem resolve_window_cases_witness :
    (resolveFaceMetricsWindow (fun s => if s = "A" then some 0 else
        if s = "B" then some 100 else none) 5000 4000 none none
      = Except.ok { mode := WindowMode.today, fromMs := 4000, toMs := 5000 }) ∧
    (resolveFaceMetricsWindow (fun s => if s = "A" then some 0 else
        if s = "B" then some 100 else none) 5000 4000 (some "A") none
      = Except.error
        "Both \x27from\x27 and \x27to\x27 must be provided together for a custom range.") ∧
    (resolveFaceMetricsWindow (fun s => if s = "A" then some 0 else
        if s = "B" then some 100 else none) 5000 4000 (some "B") (some "A")
      = Except.error "\x27from\x27 must be earlier than \x27to\x27.") ∧
    (resolveFaceMetricsWindow (fun s => if s = "A" then some 0 else
        if s = "B" then some 100 else none) 5000 4000 (some "junk") (some "A")
      = Except.error "Invalid date format. Use ISO datetime for \x27from\x27 and \x27to\x27.") := by
  have h0 := resolve_window_cases (fun s => if s = "A" then some 0 else
    if s = "B" then some 100 else none) 5000 4000 none none
  have h1 := resolve_window_cases (fun s => if s = "A" then some 0 else
    if s = "B" then some 100 else none) 5000 4000 (some "A") none
  have h2 := resolve_window_cases (fun s => if s = "A" then some 0 else
    if s = "B" then some 100 else none) 5000 4000 (some "B") (some "A")
  have h3 := resolve_window_cases (fun s => if s = "A" then some 0 else
    if s = "B" then some 100 else none) 5000 4000 (some "junk") (some "A")
  refine ⟨h0.1 rfl rfl, h1.2.1 (by decide) rfl, ?_, ?_⟩
  · exact h2.2.2.2.2.1 100 0 (by decide) (by decide) (by decide) (by decide) (by decide)
  · exact h3.2.2.2.1 (by decide) (by decide) (Or.inl (by decide))

/-! ### Claims about the percentile helper -/

/-- C7: the percentile of an empty sample is absent; on the sample
`[100, 200, 300, 400]` the 50th percentile is 200 and the 90th is 400;
and for every non-empty sample the result is the entry of an ascending
sorted permutation of the sample at index `ceil(p/100 * n) - 1` clamped
into `[0, n-1]` (nearest rank). -/
theorem percentile_nearest_rank :
    (∀ p : ℚ, percentile [] p = none) ∧
    percentile [100, 200, 300, 400] 50 = some 200 ∧
    percentile [100, 200, 300, 400] 90 = some 400 ∧
    (∀ (values : List ℚ) (p : ℚ), values ≠ [] →
      ∃ sorted : List ℚ, List.Perm sorted values ∧ sorted.Sorted (· ≤ ·) ∧
        percentile values p = sorted.get?
          (max 0 (min ((values.length : ℤ) - 1)
            (Int.ceil (p / 100 * values.length) - 1))).toNat) := by
  refine ⟨fun p => rfl, ?_, ?_, ?_⟩
  · show percentile [100, 200, 300, 400] 50 = some 200
    have hc : Int.ceil ((2 : ℚ)) = 2 := by norm_num
    norm_num [percentile, List.insertionSort, List.orderedInsert, hc]
  · show percentile [100, 200, 300, 400] 90 = some 400
    have hc : Int.ceil ((18 : ℚ) / 5) = 4 := by
      rw [Int.ceil_eq_iff]
      norm_num
    norm_num [percentile, List.insertionSort, List.orderedInsert, hc]
    rfl
  · intro values p hne
    obtain ⟨v, vs, rfl⟩ := List.exists_cons_of_ne_nil hne
    refine ⟨(v :: vs).insertionSort (· ≤ ·),
      List.perm_insertionSort _ _, List.sorted_insertionSort _ _, ?_⟩
    have hlen : ((v :: vs).insertionSort (· ≤ ·)).length = (v :: vs).length :=
      List.length_insertionSort _ _
    have hidx :
        (max 0 (min (((v :: vs).length : ℤ) - 1)
          (Int.ceil (p / 100 * (v :: vs).length) - 1))).toNat < (v :: vs).length := by
      have h1 : (max 0 (min (((v :: vs).length : ℤ) - 1)
          (Int.ceil (p / 100 * (v :: vs).length) - 1))) ≤ ((v :: vs).length : ℤ) - 1 := by
        have hlpos : (1 : ℤ) ≤ ((v :: vs).length : ℤ) := by
          simp only [List.length_cons]
          push_cast
          omega
        refine max_le (by omega) ?_
        exact le_trans (min_le_left _ _) (le_refl _)
      omega
    rw [List.get?_eq_getElem?, List.getElem?_eq_getElem (by rw [hlen]; exact hidx)]
    simp only [percentile, hlen]
    rw [List.getD_eq_getElem?_getD, List.getElem?_eq_getElem (by rw [hlen]; exact hidx)]
    rfl

/-- Witness for C7: the nearest-rank clause applied at the concrete
four-element sample with p = 50, together with the empty-sample clause. -/
theorem percentile_nearest_rank_witness :
    percentile [] 50 = none ∧
    (∃ sorted : List ℚ, List.Perm sorted [100, 200, 300, 400] ∧ sorted.Sorted (· ≤ ·) ∧
      percentile [100, 200, 300, 400] 50 = sorted.get?
        (max 0 (min ((([100, 200, 300, 400] : List ℚ).length : ℤ) - 1)
          (Int.ceil ((50 : ℚ) / 100 * ([100, 200, 300, 400] : List ℚ).length) - 1))).toNat) :=
  ⟨percentile_nearest_rank.1 50,
    percentile_nearest_rank.2.2.2 [100, 200, 300, 400] 50 (List.cons_ne_nil _ _)⟩

/-! ### Claims about the aggregation summary -/

/-- C8: the aggregated success rate is the quotient of successful
sessions by total sessions (rounded to four decimal places for
presentation, as the source does) and is exactly `0` for a window with
zero sessions — the division is guarded, so the empty case produces `0`
and never an undefined value or an error. -/
theorem success_rate_zero_safe (parseUtc : String → Option ℤ) (window : ResolvedMetricsWindow)
    (serverRows : List ServerRow) (clientRows : List (String × ClientStats)) :
    ((getSessionGroupedMetrics parseUtc window serverRows
        clientRows).session_summary.total_sessions = 0 →
      (getSessionGroupedMetrics parseUtc window serverRows
        clientRows).session_summary.success_rate = 0) ∧
    (0 < (getSessionGroupedMetrics parseUtc window serverRows
        clientRows).session_summary.total_sessions →
      (getSessionGroupedMetrics parseUtc window serverRows
          clientRows).session_summary.success_rate
        = ((round ((((getSessionGroupedMetrics parseUtc window serverRows
              clientRows).session_summary.successful_sessions : ℚ)
            / ((getSessionGroupedMetrics parseUtc window serverRows
              clientRows).session_summary.total_sessions : ℚ)) * 10000) : ℤ) : ℚ) / 10000) := by
  constructor
  · intro h
    simp only [getSessionGroupedMetrics] at h ⊢
    rw [if_neg (by omega)]
    norm_num
  · intro h
    simp only [getSessionGroupedMetrics] at h ⊢
    rw [if_pos h]

/-- Witness for C8: the empty window (no rows at all) has zero sessions
and success rate exactly `0`; a one-session window enters the quotient
branch. -/
theorem success_rate_zero_safe_witness :
    (getSessionGroupedMetrics (fun _ => none)
        { mode := WindowMode.today, fromMs := 0, toMs := 1 } [] []).session_summary.success_rate
      = 0 ∧
    (getSessionGroupedMetrics (fun _ => none)
        { mode := WindowMode.today, fromMs := 0, toMs := 1 }
        [{ id := 1, session_id := "s1", created_at := "2024-01-01 00:00:00",
           status := some "found", reason := none,
           server_processing_ms := none, gateway_upstream_ms := none }]
        []).session_summary.success_rate
      = ((round ((((getSessionGroupedMetrics (fun _ => none)
            { mode := WindowMode.today, fromMs := 0, toMs := 1 }
            [{ id := 1, session_id := "s1", created_at := "2024-01-01 00:00:00",
               status := some "found", reason := none,
               server_processing_ms := none, gateway_upstream_ms := none }]
            []).session_summary.successful_sessions : ℚ)
          / ((getSessionGroupedMetrics (fun _ => none)
            { mode := WindowMode.today, fromMs := 0, toMs := 1 }
            [{ id := 1, session_id := "s1", created_at := "2024-01-01 00:00:00",
               status := some "found", reason := none,
               server_processing_ms := none, gateway_upstream_ms := none }]
            []).session_summary.total_sessions : ℚ)) * 10000) : ℤ) : ℚ) / 10000 := by
  constructor
  · exact (success_rate_zero_safe (fun _ => none)
      { mode := WindowMode.today, fromMs := 0, toMs := 1 } [] []).1 rfl
  · refine (success_rate_zero_safe (fun _ => none)
      { mode := WindowMode.today, fromMs := 0, toMs := 1 }
      [{ id := 1, session_id := "s1", created_at := "2024-01-01 00:00:00",
         status := some "found", reason := none,
         server_processing_ms := none, gateway_upstream_ms := none }] []).2 ?_
    show 0 < (1 : Nat)
    omega

/-- C10: the `sessions` array of the aggregation result is sorted by
`started_at` descending (each entry's `started_at` is at least the next
entry's), for every input row set and window — the output ordering the
read endpoint exposes. -/
theorem sessions_sorted_desc (parseUtc : String → Option ℤ) (window : ResolvedMetricsWindow)
    (serverRows : List ServerRow) (clientRows : List (String × ClientStats)) :
    ((getSessionGroupedMetrics parseUtc window serverRows clientRows).sessions).Sorted
      sessionDescByStart := by
  haveI : IsTotal SessionOut sessionDescByStart :=
    ⟨fun a b => le_total b.started_at a.started_at⟩
  haveI : IsTrans SessionOut sessionDescByStart :=
    ⟨fun _ _ _ hab hbc => le_trans hbc hab⟩
  simp only [getSessionGroupedMetrics]
  exact List.sorted_insertionSort _ _

/-! ### Lemmas for the session-grouping correctness -/

theorem alistFind_replace_self (m : List (String × SessionAcc)) (k : String) (v : SessionAcc) :
    alistFind (alistReplace m k v) k = (alistFind m k).map (fun _ => v) := by
  induction m with
  | nil => rfl
  | cons kv m ih =>
    by_cases h : kv.1 == k
    · simp [alistFind, alistReplace, h]
    · simp [alistFind, alistReplace, h, ih]

theorem alistFind_replace_other (m : List (String × SessionAcc)) (k k2 : String)
    (v : SessionAcc) (h : k ≠ k2) :
    alistFind (alistReplace m k v) k2 = alistFind m k2 := by
  induction m with
  | nil => rfl
  | cons kv m ih =>
    by_cases h1 : kv.1 == k
    · have hk : kv.1 = k := by simpa using h1
      have h2 : (kv.1 == k2) = false := by simpa [hk] using h
      simp [alistFind, alistReplace, h1, h2, ih]
    · simp only [alistReplace, if_neg h1, alistFind]
      by_cases h2 : kv.1 == k2
      · simp [h2]
      · simp [h2, ih]

theorem alistFind_append_single (m : List (String × SessionAcc)) (k0 : String)
    (v : SessionAcc) (k : String) :
    alistFind (m ++ [(k0, v)]) k
      = (alistFind m k).or (if k0 == k then some v else none) := by
  induction m with
  | nil => simp [alistFind]
  | cons kv m ih =>
    by_cases h : kv.1 == k
    · simp [alistFind, h]
    · simp [alistFind, h, ih]

theorem foldGroup_eq_none_iff (p : String → Option ℤ) (l : List ServerRow) :
    foldGroup p l = none ↔ l = [] := by
  cases l with
  | nil => simp [foldGroup]
  | cons r rs => simp [foldGroup]

theorem foldGroup_concat (p : String → Option ℤ) (rows : List ServerRow) (row : ServerRow) :
    foldGroup p (rows ++ [row])
      = some (stepSession p
          ((foldGroup p rows).getD (blankSession row.session_id row.created_at)) row) := by
  cases rows with
  | nil => rfl
  | cons r rs =>
    simp only [List.cons_append, foldGroup, List.foldl_cons, Option.getD_some]
    rw [List.foldl_append]
    rfl

theorem processRows_find (p : String → Option ℤ) (rows : List ServerRow) (k : String) :
    alistFind (processRows p rows) k
      = foldGroup p (rows.filter (fun r => r.session_id == k)) := by
  induction rows using List.reverseRecOn with
  | nil => rfl
  | append_singleton rows row ih =>
    have hstep : processRows p (rows ++ [row]) = applyRow p (processRows p rows) row := by
      simp [processRows, List.foldl_append]
    rw [hstep, List.filter_append]
    by_cases hk : row.session_id == k
    · have hkk : row.session_id = k := by simpa using hk
      subst hkk
      have hfil1 : List.filter (fun r => r.session_id == row.session_id) [row] = [row] := by
        simp [List.filter_cons]
      rw [hfil1, foldGroup_concat]
      simp only [applyRow]
      cases hfind : alistFind (processRows p rows) row.session_id with
      | some s =>
        dsimp only
        rw [alistFind_replace_self, hfind]
        rw [hfind] at ih
        rw [← ih]
        rfl
      | none =>
        dsimp only
        rw [alistFind_append_single, hfind]
        rw [hfind] at ih
        have hemp : rows.filter (fun r => r.session_id == row.session_id) = [] :=
          (foldGroup_eq_none_iff p _).mp ih.symm
        rw [hemp]
        simp [foldGroup]
    · have hkf : (row.session_id == k) = false := by simpa using hk
      have hne : row.session_id ≠ k := by simpa using hk
      have hfil : List.filter (fun r => r.session_id == k) [row] = [] := by
        simp [List.filter_cons, hkf]
      rw [hfil, List.append_nil]
      simp only [applyRow]
      cases hfind : alistFind (processRows p rows) row.session_id with
      | some s =>
        dsimp only
        rw [alistFind_replace_other _ _ _ _ hne]
        exact ih
      | none =>
        dsimp only
        rw [alistFind_append_single]
        simp only [hkf]
        simp only [if_false, Option.or_none, Bool.false_eq_true]
        exact ih

theorem filterMap_concat_sum (g : List ServerRow) (row : ServerRow) (f : ServerRow → Option ℚ) :
    ((g ++ [row]).filterMap f).sum
      = (match f row with
        | some v => (g.filterMap f).sum + v
        | none => (g.filterMap f).sum) := by
  cases hv : f row with
  | some v => simp [List.filterMap_append, List.filterMap_cons, hv]
  | none => simp [List.filterMap_append, List.filterMap_cons, hv]

theorem filterMap_concat_length (g : List ServerRow) (row : ServerRow) (f : ServerRow → Option ℚ) :
    ((g ++ [row]).filterMap f).length
      = (match f row with
        | some _ => (g.filterMap f).length + 1
        | none => (g.filterMap f).length) := by
  cases hv : f row with
  | some v => simp [List.filterMap_append, List.filterMap_cons, hv]
  | none => simp [List.filterMap_append, List.filterMap_cons, hv]

theorem stepSession_spec (p : String → Option ℤ) (sid start : String)
    (g : List ServerRow) (row : ServerRow) :
    stepSession p (sessionGroupSpec p sid start g) row
      = sessionGroupSpec p sid start (g ++ [row]) := by
  simp only [stepSession, sessionGroupSpec, SessionAcc.mk.injEq]
  refine ⟨trivial, trivial, ?_, ?_, ?_, ?_, ?_, ?_, ?_, ?_, ?_, ?_, ?_, ?_⟩
  · simp [List.getLast?_concat]
  · simp
  · simp [List.any_append]
  · rw [List.findIdx?_append]
    by_cases hg : g.any isFoundRow
    · obtain ⟨i, hi⟩ := Option.isSome_iff_exists.mp
        (by rw [List.findIdx?_isSome, hg] : (g.findIdx? isFoundRow).isSome = true)
      simp [hg, hi]
    · have hga : g.any isFoundRow = false := by simpa using hg
      have hni : g.findIdx? isFoundRow = none := by
        rw [← Option.not_isSome_iff_eq_none, List.findIdx?_isSome, hga]
        simp
      cases hr : isFoundRow row with
      | true => simp [hga, hni, hr, List.findIdx?_cons, List.findIdx?_nil]
      | false => simp [hga, hni, hr, List.findIdx?_cons, List.findIdx?_nil]
  · rw [List.find?_append]
    by_cases hg : g.any isFoundRow
    · obtain ⟨x, hx⟩ := Option.isSome_iff_exists.mp
        (by rw [List.find?_isSome]; exact List.any_eq_true.mp hg)
      simp [hg, hx]
    · have hga : g.any isFoundRow = false := by simpa using hg
      have hfn : g.find? isFoundRow = none := by
        rw [← Option.not_isSome_iff_eq_none, List.find?_isSome]
        simpa [List.any_eq_true] using hg
      cases hr : isFoundRow row with
      | true => simp [hga, hfn, hr, List.find?_cons]
      | false => simp [hga, hfn, hr, List.find?_cons]
  · rw [List.find?_append]
    by_cases hg : g.any isFoundRow
    · obtain ⟨x, hx⟩ := Option.isSome_iff_exists.mp
        (by rw [List.find?_isSome]; exact List.any_eq_true.mp hg)
      simp [hg, hx]
    · have hga : g.any isFoundRow = false := by simpa using hg
      have hfn : g.find? isFoundRow = none := by
        rw [← Option.not_isSome_iff_eq_none, List.find?_isSome]
        simpa [List.any_eq_true] using hg
      cases hr : isFoundRow row with
      | true =>
        cases hps : p start with
        | some a =>
          cases hpr : p row.created_at with
          | some b => simp [hga, hfn, hr, List.find?_cons, hps, hpr]
          | none => simp [hga, hfn, hr, List.find?_cons, hps, hpr]
        | none => simp [hga, hfn, hr, List.find?_cons, hps]
      | false => simp [hga, hfn, hr, List.find?_cons]
  · simp [List.getLast?_concat]
  · simp [List.getLast?_concat]
  · rw [filterMap_concat_sum]
  · rw [filterMap_concat_length]
  · rw [filterMap_concat_sum]
  · rw [filterMap_concat_length]

theorem foldl_stepSession_spec (p : String → Option ℤ) (sid start : String) :
    ∀ (rows g : List ServerRow),
      List.foldl (stepSession p) (sessionGroupSpec p sid start g) rows
        = sessionGroupSpec p sid start (g ++ rows) := by
  intro rows
  induction rows with
  | nil => intro g; simp
  | cons r rs ih =>
    intro g
    rw [List.foldl_cons, stepSession_spec, ih]
    simp

theorem blankSession_eq_spec (p : String → Option ℤ) (sid created : String) :
    blankSession sid created = sessionGroupSpec p sid created [] := rfl

theorem foldGroup_spec (p : String → Option ℤ) (r : ServerRow) (rs : List ServerRow) :
    foldGroup p (r :: rs)
      = some (sessionGroupSpec p r.session_id r.created_at (r :: rs)) := by
  simp only [foldGroup]
  rw [blankSession_eq_spec p, foldl_stepSession_spec]
  simp

/-! ### Claim about per-session funnel reconstruction -/

/-- C9: for every ordered server row set and session id whose group (the
rows with that id, in insertion order) is non-empty, the grouping loop
produces for that session exactly the specification-side description
`sessionGroupSpec`: attempt count = group size, success iff some
`found` event, 1-based ordinal of the first `found` event, elapsed time
from the first event to the first `found` event, final status/reason from
the last event; and the finalized `avg_server_processing_ms` is the mean
of the `server_processing_ms` values present in the group (rounded). -/
theorem session_group_funnel (p : String → Option ℤ) (rows : List ServerRow) (sid : String)
    (r : ServerRow) (rest : List ServerRow)
    (hgrp : rows.filter (fun q => q.session_id == sid) = r :: rest) :
    alistFind (processRows p rows) sid
      = some (sessionGroupSpec p r.session_id r.created_at (r :: rest)) ∧
    (∀ cs, (finalizeSession (sessionGroupSpec p r.session_id r.created_at (r :: rest))
          cs).avg_server_processing_ms
        = if 0 < ((r :: rest).filterMap (fun q => q.server_processing_ms)).length then
            roundMetric (some ((((r :: rest).filterMap (fun q => q.server_processing_ms)).sum)
              / (((r :: rest).filterMap (fun q => q.server_processing_ms)).length)))
          else none) := by
  constructor
  · rw [processRows_find, hgrp, foldGroup_spec]
  · intro cs
    rfl

/-- Example rows for the end-to-end funnel scenario: three server events
of session `s1` with statuses unknown, unknown, found and server
processing times 50, 60, 70 one second apart. -/
def exampleRow1 : ServerRow :=
  { id := 1, session_id := "s1", created_at := "2024-01-01 10:00:00",
    status := some "unknown", reason := none,
    server_processing_ms := some 50, gateway_upstream_ms := none }

/-- Second example row. -/
def exampleRow2 : ServerRow :=
  { id := 2, session_id := "s1", created_at := "2024-01-01 10:00:01",
    status := some "unknown", reason := none,
    server_processing_ms := some 60, gateway_upstream_ms := none }

/-- Third example row, the first `found` one. -/
def exampleRow3 : ServerRow :=
  { id := 3, session_id := "s1", created_at := "2024-01-01 10:00:02",
    status := some "found", reason := none,
    server_processing_ms := some 70, gateway_upstream_ms := none }

/-- The example row set. -/
def exampleRows : List ServerRow := [exampleRow1, exampleRow2, exampleRow3]

/-- Concrete timestamp parser for the example rows (one second apart). -/
def exampleParse : String → Option ℤ := fun s =>
  if s = "2024-01-01 10:00:00" then some 0
  else if s = "2024-01-01 10:00:01" then some 1000
  else if s = "2024-01-01 10:00:02" then some 2000
  else none

/-- Witness for C9 at the spec's end-to-end scenario: the session `s1`
group unknown/unknown/found with processing times 50/60/70 yields
`attempt_count = 3`, `success = true`, `attempts_until_success = 3`,
`first_success_time_ms = 2000`, and `avg_server_processing_ms = 60`. -/
theorem session_group_funnel_witness :
    (alistFind (processRows exampleParse exampleRows) "s1").map (fun a =>
        (a.attempt_count, a.success, a.attempts_until_success, a.first_success_time_ms))
      = some (3, true, some 3, some 2000) ∧
    (finalizeSession (sessionGroupSpec exampleParse exampleRow1.session_id
        exampleRow1.created_at [exampleRow1, exampleRow2, exampleRow3])
        none).avg_server_processing_ms = some 60 := by
  have h := session_group_funnel exampleParse exampleRows "s1"
    exampleRow1 [exampleRow2, exampleRow3] rfl
  constructor
  · rw [h.1]
    rfl
  · rw [h.2 none]
    norm_num [exampleRow1, exampleRow2, exampleRow3, roundMetric, round_eq,
      List.filterMap_cons, List.filterMap_nil, List.sum_cons, List.sum_nil]
